import Mathlib

/-!
Verification of the Query Orchestration & Resilient Retrieval Engine
(phase3: `agent_orchestrator.py`, `web_search.py`, `extended_rag_pipeline.py`).

The Python code is shallowly embedded: pure helpers become Lean functions on
`List Char` / `String`, stateful objects become explicit state records with
step functions, wall-clock time is an explicit rational parameter, and every
spot where Python may raise is an `Except` value.  Python floats are modelled
as exact rationals (all constants involved are decimal fractions).
-/

/-% ---------------------------------------------------------------- %-/
/-% String utilities (models of Python str operations)               %-/
/-% ---------------------------------------------------------------- %-/

/-- An apostrophe character, kept out of string literals. -/
def apos : String := String.mk [Char.ofNat 39]

/-- Model of Python `needle in hay` prefix step: does `p` start `s`? -/
def isPrefixL : List Char → List Char → Bool
  | [], _ => true
  | _ :: _, [] => false
  | a :: as, b :: bs => a == b && isPrefixL as bs

/-- Model of Python `needle in hay` (substring containment). -/
def containsL (needle : List Char) : List Char → Bool
  | [] => needle.isEmpty
  | c :: rest => isPrefixL needle (c :: rest) || containsL needle rest

/-- Lower-casing, modelling `str.lower` on the ASCII fragment. -/
def lowerL (s : List Char) : List Char := s.map Char.toLower

/-- Split into maximal non-whitespace runs, modelling `str.split()`. -/
def wordsAux : List Char → List Char → List (List Char)
  | [], cur => if cur.isEmpty then [] else [cur.reverse]
  | c :: rest, cur =>
    if c.isWhitespace then
      if cur.isEmpty then wordsAux rest [] else cur.reverse :: wordsAux rest []
    else wordsAux rest (c :: cur)

/-- Number of words of a question, modelling `len(question.split())`. -/
def wordCount (q : String) : Nat := (wordsAux q.toList []).length

/-- Strip leading and trailing whitespace, modelling `str.strip()`. -/
def stripL (s : List Char) : List Char :=
  ((s.dropWhile Char.isWhitespace).reverse.dropWhile Char.isWhitespace).reverse

/-- Split `s` at every occurrence of one of `needles`, scanning left to
right and trying the needles in order, modelling
`re.split(alternation, s)` for an alternation of plain literals.  The
`fuel` argument makes the recursion structural; it is called with
`fuel = s.length`, which always suffices since each step consumes at
least one character. -/
def splitAux (needles : List (List Char)) : Nat → List Char → List Char → List (List Char)
  | _, [], cur => [cur.reverse]
  | 0, s, cur => [cur.reverse ++ s]
  | fuel + 1, c :: rest, cur =>
    match needles.find? (fun n => isPrefixL n (c :: rest)) with
    | some n => cur.reverse :: splitAux needles fuel (rest.drop (n.length - 1)) []
    | none => splitAux needles fuel rest (c :: cur)

/-- Model of `re.split` over an alternation of literal connectors. -/
def splitOnAny (needles : List (List Char)) (s : List Char) : List (List Char) :=
  splitAux needles s.length s []

/-- Model of Python list(dict-less) `set` dedup keeping first occurrences
(CPython set iteration order is unspecified; the claims below do not
depend on the order). -/
def dedupFirst : List String → List String → List String
  | _, [] => []
  | seen, x :: xs =>
    if seen.contains x then dedupFirst seen xs else x :: dedupFirst (x :: seen) xs

/-- Model of `"\n".join(parts)` etc. -/
def joinWith (sep : String) : List String → String
  | [] => ""
  | [x] => x
  | x :: y :: xs => x ++ sep ++ joinWith sep (y :: xs)

/-- Character-count take, modelling Python slicing `s[:n]`. -/
def takeS (s : String) (n : Nat) : String := String.mk (s.toList.take n)

/-% ---------------------------------------------------------------- %-/
/-% SearchPlanner (agent_orchestrator.py, lines 26-114)               %-/
/-% ---------------------------------------------------------------- %-/

/-- `web_indicators` list of `SearchPlanner._needs_web_search`. -/
def webIndicators : List String :=
  ["aujourd" ++ apos ++ "hui", "actuellement", "récemment", "dernier", "nouveau",
   "prix", "coût", "valeur", "statistique", "actualité", "news",
   "météo", "température", "prévision", "cours", "bourse",
   "site web", "internet", "online", "disponible"]

/-- `complexity_patterns["comparison"]` literal alternatives. -/
def comparisonPattern : List String :=
  ["comparer", "comparaison", "vs", "versus", "différence"]

/-- `complexity_patterns["multi_aspect"]` literal alternatives. -/
def multiAspectPattern : List String :=
  ["et", "ainsi que", "également", "plus", "comment", "pourquoi", "quand", "où"]

/-- `complexity_patterns["temporal"]` literal alternatives. -/
def temporalPattern : List String :=
  ["aujourd" ++ apos ++ "hui", "hier", "demain", "cette année", "dernier", "prochain", "récemment"]

/-- `complexity_patterns["quantitative"]` literal alternatives. -/
def quantitativePattern : List String :=
  ["prix", "coût", "valeur", "montant", "chiffre", "statistique", "pourcentage"]

/-- Case-insensitive `pattern.search(question)` for an alternation of
lower-case literals: some literal occurs in the lower-cased question. -/
def patternMatches (pat : List String) (q : String) : Bool :=
  pat.any (fun w => containsL w.toList (lowerL q.toList))

/-- `SearchPlanner._needs_web_search`. -/
def needsWebSearch (q : String) : Bool :=
  webIndicators.any (fun ind => containsL ind.toList (lowerL q.toList))

/-- `SearchPlanner._assess_complexity`. -/
def assessComplexity (q : String) : Nat :=
  let c1 := if 15 < wordCount q then 2 else 0
  let c2 := (if patternMatches comparisonPattern q then 2 else 0)
    + (if patternMatches multiAspectPattern q then 2 else 0)
    + (if patternMatches temporalPattern q then 2 else 0)
    + (if patternMatches quantitativePattern q then 2 else 0)
  let c3 :=
    if 1 < q.toList.count (Char.ofNat 63) ∨
        (["et", "ou", "mais"].any (fun w => containsL w.toList (lowerL q.toList))) then 3
    else 0
  min 10 (c1 + c2 + c3)

/-- The logical connectors of `SearchPlanner._break_down_question`
(case-sensitive `re.split`, alternation order preserved). -/
def connectorsL : List (List Char) :=
  [String.toList "et", String.toList "ou", String.toList "mais",
   String.toList "ainsi que", String.toList "également"]

/-- `SearchPlanner._break_down_question`. -/
def breakDownQuestion (q : String) : List String :=
  if 20 < wordCount q then
    let parts := splitOnAny connectorsL q.toList
    if 1 < parts.length then
      parts.filterMap (fun p =>
        let t := stripL p
        if t.isEmpty then none else some (String.mk t ++ "?"))
    else [q]
  else [q]

/-- Result record of `SearchPlanner.analyze_question`. -/
structure Analysis where
  needs_web : Bool
  complexity : Nat
  sub_questions : List String
  search_strategy : String
  estimated_searches : Nat
deriving DecidableEq, Repr

/-- `SearchPlanner.analyze_question`. -/
def analyzeQuestion (q : String) : Analysis :=
  let base : Analysis :=
    { needs_web := needsWebSearch q
      complexity := assessComplexity q
      sub_questions := breakDownQuestion q
      search_strategy := "single"
      estimated_searches := 1 }
  if 1 < base.sub_questions.length then
    { base with
      search_strategy := if 7 < base.complexity then "sequential" else "parallel"
      estimated_searches := base.sub_questions.length }
  else base

/-% ---------------------------------------------------------------- %-/
/-% CircuitBreaker (web_search.py, lines 18-54)                       %-/
/-% ---------------------------------------------------------------- %-/

/-- State of `CircuitBreaker`.  `time.time()` values are rationals. -/
structure CircuitBreaker where
  failure_threshold : Nat
  recovery_timeout : ℚ
  failure_count : Nat
  last_failure_time : Option ℚ
  state : String
deriving DecidableEq, Repr

/-- `CircuitBreaker.__init__`. -/
def CircuitBreaker.init (ft : Nat) (rt : ℚ) : CircuitBreaker :=
  { failure_threshold := ft, recovery_timeout := rt, failure_count := 0
    last_failure_time := none, state := "CLOSED" }

/-- `CircuitBreaker._on_success`. -/
def CircuitBreaker.onSuccess (cb : CircuitBreaker) : CircuitBreaker :=
  { cb with failure_count := 0, state := "CLOSED" }

/-- `CircuitBreaker._on_failure`, at wall-clock time `now`. -/
def CircuitBreaker.onFailure (cb : CircuitBreaker) (now : ℚ) : CircuitBreaker :=
  let cb := { cb with failure_count := cb.failure_count + 1, last_failure_time := some now }
  if cb.failure_threshold ≤ cb.failure_count then { cb with state := "OPEN" } else cb

/-- `CircuitBreaker.call`.  The underlying provider call is the `Except`
value `provider` (`ok` = normal return, `error` = raised exception).  The
returned `Bool` records whether the provider was invoked (its call count
increased).  In the `OPEN` state `last_failure_time` is always set; the
`getD 0` mirrors that Python would fault on `None` there. -/
def CircuitBreaker.call {α : Type} (cb : CircuitBreaker) (now : ℚ)
    (provider : Except String α) : CircuitBreaker × Except String α × Bool :=
  let invoke : CircuitBreaker → CircuitBreaker × Except String α × Bool := fun cb =>
    match provider with
    | Except.ok v => (cb.onSuccess, Except.ok v, true)
    | Except.error e => (cb.onFailure now, Except.error e, true)
  if cb.state = "OPEN" then
    if cb.recovery_timeout < now - cb.last_failure_time.getD 0 then
      invoke { cb with state := "HALF_OPEN" }
    else (cb, Except.error "Circuit breaker is OPEN", false)
  else invoke cb

/-- A sequence of calls whose provider always raises, at the given times. -/
def failTimes (cb : CircuitBreaker) (ts : List ℚ) : CircuitBreaker :=
  ts.foldl (fun c t => (c.call t (Except.error "boom" : Except String Unit)).1) cb

/-% ---------------------------------------------------------------- %-/
/-% WebSearchEngine (web_search.py, lines 56-257)                     %-/
/-% ---------------------------------------------------------------- %-/

/-- One raw item of the external DuckDuckGo provider (`ddgs.text`). -/
structure ProviderItem where
  title : String
  href : String
  body : String
deriving DecidableEq, Repr

/-- Outcome of one provider attempt inside `_perform_search_with_retry`:
either a result list, or the exception the attempt raised. -/
inductive FetchOutcome where
  | ok (items : List ProviderItem)
  | timeout
  | connError
  | httpError (status : Nat)
  | other (msg : String)
deriving DecidableEq, Repr

/-- A search-result dict as built by `_perform_search_with_retry`. -/
structure RawResult where
  title : String
  url : String
  snippet : String
  source : String
  timestamp : ℚ
  query : String
deriving DecidableEq, Repr

/-- The dict appended for each provider item (`web_search.py` 132-139). -/
def mkRawResult (now : ℚ) (q : String) (it : ProviderItem) : RawResult :=
  { title := it.title, url := it.href, snippet := it.body
    source := "duckduckgo", timestamp := now, query := q }

/-- The message of the final `raise` of `_perform_search_with_retry`. -/
def retryFailMsg (maxRetries : Nat) (lastExc : Option String) : String :=
  "Échec après " ++ toString maxRetries ++ " tentatives. Dernière erreur: " ++ lastExc.getD "None"

/-- The retry loop of `_perform_search_with_retry`.  `remaining` is the
number of loop iterations left (`maxRetries - attempt`), making the
recursion structural; `outcomes attempt` is what the provider does on
that attempt.  The second component logs every `time.sleep` duration, in
order.  Timeout sleeps `2^attempt` (exponential backoff), connection and
unexpected errors sleep 1, HTTP 429 sleeps a fixed 60 then retries, and
HTTP 5xx sleeps 5 — each non-429 sleep only when another attempt is left;
HTTP 4xx other than 429 breaks out of the loop and raises. -/
def performRetryAux (maxRetries : Nat) (outcomes : Nat → FetchOutcome) (now : ℚ) (q : String) :
    Nat → Nat → Option String → List ℚ → Except String (List RawResult) × List ℚ
  | 0, _, lastExc, sleeps => (Except.error (retryFailMsg maxRetries lastExc), sleeps)
  | remaining + 1, attempt, lastExc, sleeps =>
    match outcomes attempt with
    | FetchOutcome.ok items => (Except.ok (items.map (mkRawResult now q)), sleeps)
    | FetchOutcome.timeout =>
      performRetryAux maxRetries outcomes now q remaining (attempt + 1) (some "Timeout")
        (if attempt < maxRetries - 1 then sleeps ++ [(2 : ℚ) ^ attempt] else sleeps)
    | FetchOutcome.connError =>
      performRetryAux maxRetries outcomes now q remaining (attempt + 1) (some "Connection Error")
        (if attempt < maxRetries - 1 then sleeps ++ [1] else sleeps)
    | FetchOutcome.httpError st =>
      let exc := "HTTP " ++ toString st
      if st = 429 then
        performRetryAux maxRetries outcomes now q remaining (attempt + 1) (some exc) (sleeps ++ [60])
      else if 500 ≤ st then
        if attempt < maxRetries - 1 then
          performRetryAux maxRetries outcomes now q remaining (attempt + 1) (some exc) (sleeps ++ [5])
        else (Except.error (retryFailMsg maxRetries (some exc)), sleeps)
      else (Except.error (retryFailMsg maxRetries (some exc)), sleeps)
    | FetchOutcome.other msg =>
      performRetryAux maxRetries outcomes now q remaining (attempt + 1) (some msg)
        (if attempt < maxRetries - 1 then sleeps ++ [1] else sleeps)

/-- `WebSearchEngine._perform_search_with_retry`: result and sleep log. -/
def performSearchWithRetry (maxRetries : Nat) (outcomes : Nat → FetchOutcome)
    (now : ℚ) (q : String) : Except String (List RawResult) × List ℚ :=
  performRetryAux maxRetries outcomes now q maxRetries 0 none []

/-- Model of `url.startswith(("http://", "https://"))`. -/
def startsWithHttp (u : String) : Bool :=
  isPrefixL "http://".toList u.toList || isPrefixL "https://".toList u.toList

/-- `String` strip, reusing the char-list model. -/
def stripS (s : String) : String := String.mk (stripL s.toList)

/-- `WebSearchEngine._validate_results`.  The required-fields check of the
source is vacuous here because the embedded dicts always carry all keys. -/
def validateResults (rs : List RawResult) : List RawResult :=
  rs.filterMap (fun r =>
    if ¬ startsWithHttp r.url then none
    else if (stripS r.title).isEmpty ∨ (stripS r.snippet).isEmpty then none
    else if (stripS r.title).length < 3 ∨ (stripS r.snippet).length < 10 then none
    else some { r with title := stripS r.title, snippet := stripS r.snippet })

/-- State of `WebSearchEngine`. -/
structure WebSearchEngine where
  max_retries : Nat
  timeout : ℚ
  max_results : Nat
  circuit_breaker : CircuitBreaker
deriving DecidableEq, Repr

/-- `WebSearchEngine()` with the default arguments (3, 10, 5) and the
default breaker (threshold 5, recovery timeout 60). -/
def WebSearchEngine.default : WebSearchEngine :=
  { max_retries := 3, timeout := 10, max_results := 5
    circuit_breaker := CircuitBreaker.init 5 60 }

/-- `WebSearchEngine.search`.  Every exception (retries exhausted, open
circuit, anything else) is caught and turned into the normal return value
`[]`; the function has no error channel, exactly like the source. -/
def WebSearchEngine.search (eng : WebSearchEngine) (outcomes : Nat → FetchOutcome)
    (now : ℚ) (q : String) (maxResults : Option Nat) : List RawResult × WebSearchEngine :=
  let _mr := maxResults.getD eng.max_results
  match eng.circuit_breaker.call now (performSearchWithRetry eng.max_retries outcomes now q).1 with
  | (cb, Except.ok raw, _) => (validateResults raw, { eng with circuit_breaker := cb })
  | (cb, Except.error _, _) => ([], { eng with circuit_breaker := cb })

/-% ---------------------------------------------------------------- %-/
/-% Context chunks and fusion (extended_rag_pipeline.py, 326-397)     %-/
/-% ---------------------------------------------------------------- %-/

/-- A retrieval chunk dict.  Optional fields model `dict.get` defaults. -/
structure Chunk where
  text : String
  source_type : Option String
  source : Option String
  url : Option String
  title : Option String
  timestamp : Option ℚ
deriving DecidableEq, Repr

/-- A chunk together with the `relevance_score` that `_fuse_results`
assigns to it. -/
structure ScoredChunk where
  chunk : Chunk
  relevance_score : ℚ
deriving DecidableEq, Repr

/-- `ExtendedRAGPipeline._calculate_relevance_score` at wall-clock time
`now` (a Unix timestamp in seconds).  Floats are modelled as exact
rationals. -/
def calculateRelevanceScore (now : ℚ) (c : Chunk) : ℚ :=
  let score : ℚ := 0.5
  let score :=
    if c.source_type == some "web" then
      let hoursOld := (now - c.timestamp.getD 0) / 3600
      if hoursOld < 24 then score + 0.3
      else if hoursOld < 168 then score + 0.2
      else score
    else score
  let score := if c.source_type == some "local" then score + 0.2 else score
  let textLength := c.text.length
  let score :=
    if textLength < 100 then score - 0.2
    else if 1000 < textLength then score + 0.1
    else score
  max 0 (min 1 score)

/-- Attach the computed relevance score (the in-place dict update of
`_fuse_results`). -/
def scoreChunk (now : ℚ) (c : Chunk) : ScoredChunk :=
  { chunk := c, relevance_score := calculateRelevanceScore now c }

/-- The descending-score ordering used by
`sorted(all_results, key=score, reverse=True)`. -/
def scoreGE (a b : ScoredChunk) : Prop := b.relevance_score ≤ a.relevance_score

instance : DecidableRel scoreGE :=
  fun a b => inferInstanceAs (Decidable (b.relevance_score ≤ a.relevance_score))

instance : IsTotal ScoredChunk scoreGE := ⟨fun a b => le_total b.relevance_score a.relevance_score⟩

instance : IsTrans ScoredChunk scoreGE := ⟨fun _ _ _ hab hbc => le_trans hbc hab⟩

/-- `ExtendedRAGPipeline._diversify_sources`, with the running
`source_counts` dict as a function. -/
def diversifySourcesAux (maxPer : Nat) : (String → Nat) → List ScoredChunk → List ScoredChunk
  | _, [] => []
  | counts, c :: rest =>
    let st := c.chunk.source_type.getD "unknown"
    if counts st < maxPer then
      c :: diversifySourcesAux maxPer (fun s => if s = st then counts st + 1 else counts s) rest
    else diversifySourcesAux maxPer counts rest

/-- `_diversify_sources(results, max_per_source)` with an empty dict. -/
def diversifySources (results : List ScoredChunk) (maxPer : Nat) : List ScoredChunk :=
  diversifySourcesAux maxPer (fun _ => 0) results

/-- `ExtendedRAGPipeline._fuse_results`.  Python `sorted` is a stable
sort; `List.insertionSort` with the reflexive descending relation
`scoreGE` is the (unique) stable descending sort, so it models
`sorted(..., reverse=True)` exactly, ties keeping input order. -/
def fuseResults (now : ℚ) (localResults webResults : List Chunk) : List ScoredChunk :=
  let allResults := (localResults ++ webResults).map (scoreChunk now)
  let sortedResults := allResults.insertionSort scoreGE
  let diversified := diversifySources sortedResults 3
  diversified.take 10

/-% ---------------------------------------------------------------- %-/
/-% ConversationMemory (extended_rag_pipeline.py, lines 43-117)       %-/
/-% ---------------------------------------------------------------- %-/

/-- The `_extract_sources` source record. -/
structure SourceRef where
  url : String
  type : String
  title : String
deriving DecidableEq, Repr

/-- The dict returned by `ExtendedRAGPipeline.ask_question` (success and
error paths share the shape; absent keys are defaults). -/
structure PipeResp where
  answer : String
  sources : List SourceRef
  context_chunks : Nat
  context_length : Nat
  search_queries : List String
  web_sources : List String
  local_sources : Nat
  processing_time : ℚ
  error : Option String
deriving DecidableEq, Repr

/-- One interaction record of `ConversationMemory.add_interaction`. -/
structure Interaction where
  timestamp : ℚ
  question : String
  response : PipeResp
  search_queries : List String
  web_sources : List String
deriving DecidableEq, Repr

/-- State of `ConversationMemory` (the unused `search_cache` dict stays
empty in the source and is omitted). -/
structure ConversationMemory where
  max_memory : Nat
  ttl_hours : ℚ
  interactions : List Interaction
deriving DecidableEq, Repr

/-- `ConversationMemory.__init__`. -/
def ConversationMemory.init (maxMemory : Nat) (ttlHours : ℚ) : ConversationMemory :=
  { max_memory := maxMemory, ttl_hours := ttlHours, interactions := [] }

/-- `ConversationMemory._cleanup_expired` at time `now` (hours). -/
def ConversationMemory.cleanupExpired (m : ConversationMemory) (now : ℚ) : ConversationMemory :=
  { m with interactions := m.interactions.filter (fun i => decide (now - m.ttl_hours < i.timestamp)) }

/-- The interaction dict built by `ConversationMemory.add_interaction`. -/
def mkInteraction (now : ℚ) (q : String) (resp : PipeResp) : Interaction :=
  { timestamp := now, question := q, response := resp
    search_queries := resp.search_queries, web_sources := resp.web_sources }

/-- `ConversationMemory.add_interaction` at time `now` (hours since an
arbitrary epoch; `datetime.now()` is monotone). -/
def ConversationMemory.addInteraction (m : ConversationMemory) (now : ℚ) (q : String)
    (resp : PipeResp) : ConversationMemory :=
  let inter : Interaction := mkInteraction now q resp
  let l := m.interactions ++ [inter]
  let l := if m.max_memory < l.length then l.tail else l
  ConversationMemory.cleanupExpired { m with interactions := l } now

/-- `ConversationMemory.get_recent_context` (`recent[-5:]` keeps the last
five entries). -/
def ConversationMemory.getRecentContext (m : ConversationMemory) (now hours : ℚ) :
    List Interaction :=
  let recent := m.interactions.filter (fun i => decide (now - hours < i.timestamp))
  recent.drop (recent.length - 5)

/-- Jaccard similarity gate `ConversationMemory._similar_queries`. -/
def similarQueries (q1 q2 : String) : Bool :=
  let w1 := dedupFirst [] ((wordsAux (lowerL q1.toList) []).map String.mk)
  let w2 := dedupFirst [] ((wordsAux (lowerL q2.toList) []).map String.mk)
  let inter := (w1.filter (fun w => w2.contains w)).length
  let union := (dedupFirst [] (w1 ++ w2)).length
  if union = 0 then false else decide ((7 : ℚ) / 10 < (inter : ℚ) / (union : ℚ))

/-- `ConversationMemory.is_recently_searched` (read-only: it filters by
the window but purges nothing). -/
def ConversationMemory.isRecentlySearched (m : ConversationMemory) (now : ℚ) (q : String)
    (hours : ℚ) : Bool :=
  m.interactions.any (fun i =>
    decide (now - hours < i.timestamp) && i.search_queries.any (fun sq => similarQueries q sq))

/-- A run of `add_interaction` calls: `(time, question, response)`
triples.  The lookup operations do not mutate the state. -/
def runMemory (m : ConversationMemory) : List (ℚ × String × PipeResp) → ConversationMemory
  | [] => m
  | op :: rest => runMemory (m.addInteraction op.1 op.2.1 op.2.2) rest

/-% ---------------------------------------------------------------- %-/
/-% ExtendedRAGPipeline.ask_question (extended_rag_pipeline, 163-229) %-/
/-% ---------------------------------------------------------------- %-/

/-- External collaborators of the pipeline, as oracles.  `localSearch`
abstracts the phase-2 RAG call inside `_search_local` (already parsed
into chunks), `webSearch` abstracts `web_search.search` plus the HTML
processing of `_search_web_enhanced`, and `generate` abstracts the LM
Studio call of `_simulate_generation`; an `error` value is a raised
exception (or a failed connection test for `generate`). -/
structure PipelineDeps where
  localAvailable : Bool
  localSearch : String → Except String (List Chunk)
  webSearch : String → Nat → Except String (List Chunk)
  generate : String → List ScoredChunk → Except String String

/-- `ExtendedRAGPipeline._search_local`: unavailable or failing local
search degrades to zero chunks. -/
def searchLocal (deps : PipelineDeps) (q : String) : List Chunk :=
  if ¬ deps.localAvailable then []
  else
    match deps.localSearch q with
    | Except.ok cs => cs
    | Except.error _ => []

/-- `ExtendedRAGPipeline._search_web_enhanced`: a failing web search
degrades to zero chunks, the issued query list is returned either way. -/
def searchWebEnhanced (deps : PipelineDeps) (q : String) (maxResults : Nat) :
    List Chunk × List String :=
  match deps.webSearch q maxResults with
  | Except.ok cs => (cs, [q])
  | Except.error _ => ([], [q])

/-- `ExtendedRAGPipeline._fallback_generation`. -/
def fallbackGeneration (ctx : List ScoredChunk) : String :=
  let hasLocal := ctx.any (fun c => c.chunk.source_type == some "local")
  let hasWeb := ctx.any (fun c => c.chunk.source_type == some "web")
  if hasWeb && hasLocal then
    "Basé sur les documents internes et les informations web récentes, voici la réponse à votre question."
  else if hasWeb then
    "Selon les informations trouvées sur le web, voici ce que je peux vous dire."
  else if hasLocal then
    "D" ++ apos ++ "après les documents internes, voici la réponse à votre question."
  else
    "Je n" ++ apos ++ "ai pas trouvé d" ++ apos ++ "informations pertinentes dans les sources disponibles."

/-- `ExtendedRAGPipeline._simulate_generation`: any LM Studio failure
falls back to the template answer. -/
def simulateGeneration (deps : PipelineDeps) (q : String) (ctx : List ScoredChunk) : String :=
  match deps.generate q ctx with
  | Except.ok a => a
  | Except.error _ => fallbackGeneration ctx

/-- `ExtendedRAGPipeline._extract_sources`, with the `seen_sources` set
as an accumulator list. -/
def extractSourcesAux : List String → List ScoredChunk → List SourceRef
  | _, [] => []
  | seen, c :: rest =>
    let source := c.chunk.source.getD "unknown"
    let sourceType := c.chunk.source_type.getD "unknown"
    if seen.contains source then extractSourcesAux seen rest
    else
      { url := if sourceType = "web" then source else ""
        type := sourceType
        title := c.chunk.title.getD source } :: extractSourcesAux (source :: seen) rest

/-- `ExtendedRAGPipeline._extract_sources`. -/
def extractSources (ctx : List ScoredChunk) : List SourceRef := extractSourcesAux [] ctx

/-- `ExtendedRAGPipeline._build_context_text`. -/
def buildContextText (ctx : List ScoredChunk) : String :=
  joinWith "\n\n---\n\n" (ctx.map (fun c =>
    "[" ++ String.mk (((c.chunk.source_type.getD "unknown").toList).map Char.toUpper)
      ++ ": " ++ c.chunk.source.getD "unknown" ++ "]\n" ++ c.chunk.text))

/-- `ExtendedRAGPipeline.ask_question` at time `now`, threading the
conversation memory and a counter of `add_interaction` calls.  Every
inner step catches its own exceptions (`_search_local`,
`_search_web_enhanced`, `_simulate_generation` all degrade), so the
success path always runs to the single `add_interaction` call; the
dead `_build_web_aware_prompt` string and the purely observational
`stats` counters and wall-clock `processing_time` are not modelled
(`processing_time` is reported as 0). -/
def askQuestion (deps : PipelineDeps) (mem : ConversationMemory) (appended : Nat)
    (now : ℚ) (q : String) (useWeb : Bool) (maxWebResults : Nat) :
    ConversationMemory × Nat × PipeResp :=
  let localResults := searchLocal deps q
  let (webResults, searchQueries) :=
    if useWeb then
      if ¬ mem.isRecentlySearched now q 1 then searchWebEnhanced deps q maxWebResults
      else ([], [])
    else ([], [])
  let combinedContext := fuseResults now localResults webResults
  let answer := simulateGeneration deps q combinedContext
  let fullResponse : PipeResp :=
    { answer := answer
      sources := extractSources combinedContext
      context_chunks := combinedContext.length
      context_length := (buildContextText combinedContext).length
      search_queries := searchQueries
      web_sources := webResults.map (fun c => c.url.getD "")
      local_sources := localResults.length
      processing_time := 0
      error := none }
  (mem.addInteraction now q fullResponse, appended + 1, fullResponse)

/-% ---------------------------------------------------------------- %-/
/-% WebAwareAgent (agent_orchestrator.py, lines 116-355)              %-/
/-% ---------------------------------------------------------------- %-/

/-- One entry of the `sub_responses` list of `_execute_parallel_search`. -/
structure SubResp where
  question : String
  answer : String
  sources : List SourceRef
deriving DecidableEq, Repr

/-- One entry of the `sequential_steps` list of
`_execute_sequential_search`. -/
structure SeqStep where
  step : Nat
  question : String
  enriched_question : String
  answer : String
  sources : List SourceRef
deriving DecidableEq, Repr

/-- The dict returned by `WebAwareAgent.answer_question`.  The source
returns dicts with strategy-dependent keys; absent keys are defaults
(`none`, `[]`, `0`). -/
structure AgentResponse where
  answer : String
  error : Option String
  search_strategy : String
  processing_time : ℚ
  sub_questions_count : Option Nat
  sources : List SourceRef
  search_queries : List String
  web_sources : List String
  local_sources : Nat
  sub_responses : List SubResp
  sequential_steps : List SeqStep
deriving DecidableEq, Repr

/-- `WebAwareAgent` statistics dict. -/
structure AgentStats where
  total_questions : Nat
  web_searches_performed : Nat
  sub_questions_generated : Nat
  average_response_time : ℚ
deriving DecidableEq, Repr

/-- The pipeline dict as seen by the orchestrator single-search path. -/
def pipeToAgent (r : PipeResp) : AgentResponse :=
  { answer := r.answer, error := r.error, search_strategy := ""
    processing_time := r.processing_time, sub_questions_count := none
    sources := r.sources, search_queries := r.search_queries
    web_sources := r.web_sources, local_sources := r.local_sources
    sub_responses := [], sequential_steps := [] }

/-- `WebAwareAgent._merge_sources`: flatten, dedup by URL, dropping
falsy (empty) URLs. -/
def mergeSourcesAux : List String → List SourceRef → List SourceRef
  | _, [] => []
  | seen, s :: rest =>
    if s.url.isEmpty ∨ seen.contains s.url then mergeSourcesAux seen rest
    else s :: mergeSourcesAux (s.url :: seen) rest

/-- `WebAwareAgent._merge_sources` over the collected response sources. -/
def mergeSources (rs : List (List SourceRef)) : List SourceRef :=
  mergeSourcesAux [] rs.flatten

/-- `WebAwareAgent._synthesize_responses`. -/
def synthesizeResponses (subResponses : List SubResp) : String :=
  let parts :=
    ["Voici une synthèse des informations trouvées:"]
    ++ subResponses.map (fun r =>
        "\n**" ++ r.question ++ "**\n"
        ++ (if 300 < r.answer.length then takeS r.answer 300 ++ "..." else r.answer))
    ++ ["\nCette réponse combine des informations provenant de sources multiples."]
  joinWith "\n" parts

/-- `WebAwareAgent._synthesize_sequential_responses`. -/
def synthesizeSequentialResponses (steps : List SeqStep) : String :=
  let parts :=
    ["Voici le résultat de l" ++ apos ++ "analyse étape par étape:"]
    ++ steps.flatMap (fun r =>
        ["\n### Étape " ++ toString r.step ++ ": " ++ r.question, r.answer])
    ++ ["\n**Conclusion:** Cette analyse progressive permet d" ++ apos ++ "approfondir le sujet."]
  joinWith "\n" parts

/-- `WebAwareAgent._execute_single_search`: one pipeline round.  The
round function abstracts `rag_pipeline.ask_question(q, use_web=...)`
over a threaded collaborator state `σ`; an `error` result is a raised
exception, with the state mutations made so far kept (Python mutates in
place). -/
def execSingleSearch {σ : Type} (round : σ → String → Bool → σ × Except String PipeResp)
    (st : σ) (q : String) (analysis : Analysis) : σ × Except String AgentResponse :=
  let (st', r) := round st q analysis.needs_web
  (st', r.map pipeToAgent)

/-- The loop of `_execute_parallel_search`, collecting sub-responses,
web sources and local source counts; a raised exception aborts the loop
and propagates. -/
def execParallelAux {σ : Type} (round : σ → String → Bool → σ × Except String PipeResp)
    (analysis : Analysis) : σ → List String → σ × Except String (List SubResp × List String × Nat)
  | st, [] => (st, Except.ok ([], [], 0))
  | st, q :: rest =>
    let (st', r) := round st q analysis.needs_web
    match r with
    | Except.error e => (st', Except.error e)
    | Except.ok resp =>
      match execParallelAux round analysis st' rest with
      | (st'', Except.ok (subs, webs, locs)) =>
        (st'', Except.ok ({ question := q, answer := resp.answer, sources := resp.sources } :: subs,
          resp.web_sources ++ webs, resp.local_sources + locs))
      | (st'', Except.error e) => (st'', Except.error e)

/-- `WebAwareAgent._execute_parallel_search`. -/
def execParallelSearch {σ : Type} (round : σ → String → Bool → σ × Except String PipeResp)
    (st : σ) (subQuestions : List String) (analysis : Analysis) :
    σ × Except String AgentResponse :=
  match execParallelAux round analysis st subQuestions with
  | (st', Except.error e) => (st', Except.error e)
  | (st', Except.ok (subs, webs, locs)) =>
    (st', Except.ok
      { answer := synthesizeResponses subs
        error := none, search_strategy := "", processing_time := 0, sub_questions_count := none
        sources := mergeSources (subs.map (fun r => r.sources))
        search_queries := []
        web_sources := dedupFirst [] webs
        local_sources := locs
        sub_responses := subs
        sequential_steps := [] })

/-- The loop of `_execute_sequential_search`: the step index is cut off
at `max_depth`, each question is enriched with the first 200 characters
of the accumulated context. -/
def execSeqAux {σ : Type} (round : σ → String → Bool → σ × Except String PipeResp)
    (analysis : Analysis) (maxDepth : Nat) :
    List String → Nat → String → σ → σ × Except String (List SeqStep)
  | [], _, _, st => (st, Except.ok [])
  | q :: rest, i, ctx, st =>
    if maxDepth ≤ i then (st, Except.ok [])
    else
      let enriched := if ctx.isEmpty then q else q ++ " (Contexte: " ++ takeS ctx 200 ++ "...)"
      let (st', r) := round st enriched analysis.needs_web
      match r with
      | Except.error e => (st', Except.error e)
      | Except.ok resp =>
        match execSeqAux round analysis maxDepth rest (i + 1) (ctx ++ " " ++ resp.answer) st' with
        | (st'', Except.ok steps) =>
          (st'', Except.ok
            ({ step := i + 1, question := q, enriched_question := enriched,
               answer := resp.answer, sources := resp.sources } :: steps))
        | (st'', Except.error e) => (st'', Except.error e)

/-- `WebAwareAgent._execute_sequential_search`. -/
def execSequentialSearch {σ : Type} (round : σ → String → Bool → σ × Except String PipeResp)
    (st : σ) (subQuestions : List String) (analysis : Analysis) (maxDepth : Nat) :
    σ × Except String AgentResponse :=
  match execSeqAux round analysis maxDepth subQuestions 0 "" st with
  | (st', Except.error e) => (st', Except.error e)
  | (st', Except.ok steps) =>
    (st', Except.ok
      { answer := synthesizeSequentialResponses steps
        error := none, search_strategy := "", processing_time := 0, sub_questions_count := none
        sources := mergeSources (steps.map (fun r => r.sources))
        search_queries := [], web_sources := [], local_sources := 0
        sub_responses := [], sequential_steps := steps })

/-- The strategy dispatch of `answer_question` (lines 173-184). -/
def dispatchStrategy {σ : Type} (round : σ → String → Bool → σ × Except String PipeResp)
    (st : σ) (q : String) (analysis : Analysis) (maxDepth : Nat) :
    σ × Except String AgentResponse :=
  if analysis.search_strategy = "single" then execSingleSearch round st q analysis
  else if analysis.search_strategy = "parallel" then
    execParallelSearch round st analysis.sub_questions analysis
  else if analysis.search_strategy = "sequential" then
    execSequentialSearch round st analysis.sub_questions analysis maxDepth
  else execSingleSearch round st q analysis

/-- The degraded response of the `not self.available` branch. -/
def unavailableResponse (elapsed : ℚ) : AgentResponse :=
  { answer := "Le système de recherche web n" ++ apos
      ++ "est pas disponible actuellement. Veuillez vérifier que tous les composants sont installés."
    error := none, search_strategy := "unavailable", processing_time := elapsed
    sub_questions_count := none, sources := [], search_queries := [], web_sources := []
    local_sources := 0, sub_responses := [], sequential_steps := [] }

/-- The degraded response of the top-level `except` branch. -/
def errorResponse (e : String) (elapsed : ℚ) : AgentResponse :=
  { answer := "Désolé, une erreur s" ++ apos
      ++ "est produite lors du traitement de votre question."
    error := some e, search_strategy := "error", processing_time := elapsed
    sub_questions_count := none, sources := [], search_queries := [], web_sources := []
    local_sources := 0, sub_responses := [], sequential_steps := [] }

/-- `WebAwareAgent.answer_question`.  Wall-clock elapsed time is the
parameter `elapsed`.  The function is total: every exception raised by a
retrieval round (an `error` from `dispatchStrategy`) is converted into
the degraded `errorResponse`, and an unavailable agent returns the
degraded `unavailableResponse` — the caller always receives an
`AgentResponse`. -/
def answerQuestion {σ : Type} (round : σ → String → Bool → σ × Except String PipeResp)
    (available : Bool) (st : σ) (stats : AgentStats) (q : String) (maxDepth : Nat)
    (elapsed : ℚ) : σ × AgentStats × AgentResponse :=
  let stats1 := { stats with total_questions := stats.total_questions + 1 }
  if ¬ available then (st, stats1, unavailableResponse elapsed)
  else
    let analysis := analyzeQuestion q
    match dispatchStrategy round st q analysis maxDepth with
    | (st', Except.error e) => (st', stats1, errorResponse e elapsed)
    | (st', Except.ok resp) =>
      let resp := { resp with
        processing_time := elapsed
        search_strategy := analysis.search_strategy
        sub_questions_count := some analysis.sub_questions.length }
      let n : ℚ := stats1.total_questions
      let stats2 := { stats1 with
        web_searches_performed := stats1.web_searches_performed + analysis.estimated_searches
        sub_questions_generated := stats1.sub_questions_generated + analysis.sub_questions.length
        average_response_time := (stats1.average_response_time * (n - 1) + elapsed) / n }
      (st', stats2, resp)

/-- The concrete round used by the real agent: `_execute_single_search`
calls the pipeline `ask_question` (default `max_web_results = 3`),
threading the conversation memory and the `add_interaction` counter; it
never raises because every inner pipeline step degrades on failure. -/
def pipelineRound (deps : PipelineDeps) (now : ℚ) :
    ConversationMemory × Nat → String → Bool → (ConversationMemory × Nat) × Except String PipeResp :=
  fun s q useWeb =>
    let r := askQuestion deps s.1 s.2 now q useWeb 3
    ((r.1, r.2.1), Except.ok r.2.2)

/-% ---------------------------------------------------------------- %-/
/-% Concrete fixtures used by closed theorems                         %-/
/-% ---------------------------------------------------------------- %-/

/-- The spec scenario question (English). -/
def qEn : String := "What is the Bitcoin price today?"

/-- The corresponding question of the source test suite (French). -/
def qFr : String := "Quel est le prix du Bitcoin aujourd" ++ apos ++ "hui?"

/-- A 21-word question made only of the connector word `et`. -/
def qEt : String := "et et et et et et et et et et et et et et et et et et et et et"

/-- A 21-word question made only of the connector word `ou`. -/
def qOu : String := "ou ou ou ou ou ou ou ou ou ou ou ou ou ou ou ou ou ou ou ou ou"

/-- A 21-word question that splits at its `et` into two sub-questions
and has complexity 7, hence strategy `parallel`. -/
def qPar : String :=
  "aaa bbb ccc ddd eee fff ggg hhh iii jjj kkk lll mmm nnn ooo ppp qqq rrr sss et ttt"

/-- Fresh agent statistics. -/
def stats0 : AgentStats :=
  { total_questions := 0, web_searches_performed := 0, sub_questions_generated := 0
    average_response_time := 0 }

/-- A retrieval round that always raises. -/
def roundFail : Unit → String → Bool → Unit × Except String PipeResp :=
  fun _ _ _ => ((), Except.error "boom")

/-- Trivial healthy collaborators for the pipeline. -/
def deps0 : PipelineDeps :=
  { localAvailable := false
    localSearch := fun _ => Except.ok []
    webSearch := fun _ _ => Except.ok []
    generate := fun _ _ => Except.ok "ok" }

/-- A well-formed provider item. -/
def itemA : ProviderItem :=
  { title := "A fine title", href := "https://example.org/a"
    body := "a sufficiently long snippet" }

/-- An empty pipeline response fixture. -/
def respNil : PipeResp :=
  { answer := "", sources := [], context_chunks := 0, context_length := 0
    search_queries := [], web_sources := [], local_sources := 0
    processing_time := 0, error := none }

/-- A local chunk fixture. -/
def chunkLocal : Chunk :=
  { text := "", source_type := some "local", source := some "local_documents"
    url := none, title := none, timestamp := none }

/-- A web chunk fixture. -/
def chunkWeb : Chunk :=
  { text := "", source_type := some "web", source := some "https://example.org/a"
    url := some "https://example.org/a", title := some "A", timestamp := some 0 }

/-% ---------------------------------------------------------------- %-/
/-% Theorems                                                          %-/
/-% ---------------------------------------------------------------- %-/

/-- C6 (counterexample): on the exact question of the claim, "What is
the Bitcoin price today?", the planner computes `needsWeb = false` and a
complexity of 0 — the keyword indicators of `_needs_web_search` are the
French words "aujourd'hui" and "prix", which the English words "today"
and "price" do not contain, so the claimed `needsWeb = true` and
`complexity ≥ 2` are both false. -/
theorem bitcoin_english_counterexample :
    needsWebSearch qEn = false ∧ assessComplexity qEn = 0 := by decide

/-- C6 (amended): for the French form of the same question used by the
source tests, "Quel est le prix du Bitcoin aujourd'hui?", the analysis
yields `needsWeb = true` (keywords "prix"/"aujourd'hui"), complexity at
least 2, and strategy `single` since the question is not decomposed. -/
theorem bitcoin_french_scenario :
    needsWebSearch qFr = true ∧ 2 ≤ assessComplexity qFr ∧
    (analyzeQuestion qFr).search_strategy = "single" ∧
    (analyzeQuestion qFr).sub_questions = [qFr] := by decide

/-- C7 (counterexample): a 21-word question consisting only of the
connector `et` is split into parts that are all whitespace, and
`_break_down_question` returns the empty list — the claimed length
lower bound `≥ 1` fails. -/
theorem break_down_empty_counterexample :
    breakDownQuestion qEt = [] ∧ 20 < wordCount qEt := by decide

/-- C7 (amended): the sub-question list defaults to `[question]` (in
particular whenever the question has at most 20 words or the connector
split yields at most one part), and it is non-empty whenever some split
segment has non-whitespace content; it is empty exactly in the
degenerate case where a question of more than 20 words splits into
several all-whitespace segments. -/
theorem break_down_amended (q : String) :
    (wordCount q ≤ 20 → breakDownQuestion q = [q]) ∧
    ((splitOnAny connectorsL q.toList).length ≤ 1 → breakDownQuestion q = [q]) ∧
    ((∃ p ∈ splitOnAny connectorsL q.toList, (stripL p).isEmpty = false) →
      1 ≤ (breakDownQuestion q).length) := by
  refine ⟨fun h => ?_, fun h => ?_, fun h => ?_⟩
  · unfold breakDownQuestion
    rw [if_neg (by omega)]
  · unfold breakDownQuestion
    by_cases hw : 20 < wordCount q
    · rw [if_pos hw, if_neg (by omega)]
    · rw [if_neg hw]
  · obtain ⟨p, hp, hne⟩ := h
    unfold breakDownQuestion
    by_cases hw : 20 < wordCount q
    · rw [if_pos hw]
      by_cases hl : 1 < (splitOnAny connectorsL q.toList).length
      · rw [if_pos hl]
        have hmem : (String.mk (stripL p) ++ "?") ∈
            (splitOnAny connectorsL q.toList).filterMap (fun p =>
              let t := stripL p
              if t.isEmpty then none else some (String.mk t ++ "?")) := by
          refine List.mem_filterMap.mpr ⟨p, hp, ?_⟩
          simp [hne]
        have := List.length_pos.mpr (List.ne_nil_of_mem hmem)
        omega
      · rw [if_neg hl]
        simp
    · rw [if_neg hw]
      simp

/-- C7 (witness): the default case at a concrete one-word question. -/
theorem break_down_amended_witness :
    breakDownQuestion "hello" = ["hello"] ∧ 1 ≤ (breakDownQuestion "hello").length := by
  have h := break_down_amended "hello"
  exact ⟨h.1 (by decide), h.2.2 (by decide)⟩

/-- C5 (counterexample): on the degenerate 21-word all-`ou` question the
sub-question list is empty (length 0, not 1) and the complexity is at
most 7, so the claim requires strategy `parallel`; the code keeps the
default `single`. -/
theorem strategy_empty_subquestions_counterexample :
    (analyzeQuestion qOu).sub_questions.length ≠ 1 ∧
    (analyzeQuestion qOu).complexity ≤ 7 ∧
    (analyzeQuestion qOu).search_strategy ≠ "parallel" := by decide

/-- The analysis keeps the raw sub-question list in both branches. -/
theorem analyzeQuestion_sub_questions (q : String) :
    (analyzeQuestion q).sub_questions = breakDownQuestion q := by
  by_cases h : 1 < (breakDownQuestion q).length <;> simp [analyzeQuestion, h]

/-- The analysis keeps the raw complexity in both branches. -/
theorem analyzeQuestion_complexity (q : String) :
    (analyzeQuestion q).complexity = assessComplexity q := by
  by_cases h : 1 < (breakDownQuestion q).length <;> simp [analyzeQuestion, h]

/-- Closed form of the selected strategy. -/
theorem analyzeQuestion_strategy (q : String) :
    (analyzeQuestion q).search_strategy =
      (if 1 < (breakDownQuestion q).length then
        (if 7 < assessComplexity q then "sequential" else "parallel")
      else "single") := by
  by_cases h : 1 < (breakDownQuestion q).length <;> simp [analyzeQuestion, h]

/-- Closed form of the estimated search count. -/
theorem analyzeQuestion_estimated (q : String) :
    (analyzeQuestion q).estimated_searches =
      (if 1 < (breakDownQuestion q).length then (breakDownQuestion q).length else 1) := by
  by_cases h : 1 < (breakDownQuestion q).length <;> simp [analyzeQuestion, h]

/-- C5 (amended): strategy selection as the code implements it: a
sub-question list of length at most 1 (including the degenerate empty
list) keeps strategy `single` and estimated search count 1; a list of
several sub-questions selects `sequential` when complexity exceeds 7,
`parallel` otherwise, with estimated search count the number of
sub-questions. -/
theorem strategy_selection_amended (q : String) :
    ((analyzeQuestion q).sub_questions.length ≤ 1 →
      (analyzeQuestion q).search_strategy = "single" ∧
      (analyzeQuestion q).estimated_searches = 1) ∧
    (1 < (analyzeQuestion q).sub_questions.length →
      (7 < (analyzeQuestion q).complexity →
        (analyzeQuestion q).search_strategy = "sequential") ∧
      ((analyzeQuestion q).complexity ≤ 7 →
        (analyzeQuestion q).search_strategy = "parallel") ∧
      (analyzeQuestion q).estimated_searches = (analyzeQuestion q).sub_questions.length) := by
  rw [analyzeQuestion_sub_questions, analyzeQuestion_complexity, analyzeQuestion_strategy,
    analyzeQuestion_estimated]
  constructor
  · intro hc
    rw [if_neg (by omega), if_neg (by omega)]
    exact ⟨rfl, rfl⟩
  · intro hc
    rw [if_pos hc, if_pos hc]
    refine ⟨fun h7 => ?_, fun h7 => ?_, rfl⟩
    · rw [if_pos h7]
    · rw [if_neg (by omega)]

/-- C5 (witness): the multi-sub-question branch at the concrete
two-sub-question, complexity-7 question `qPar`. -/
theorem strategy_selection_amended_witness :
    (analyzeQuestion qPar).search_strategy = "parallel" ∧
    (analyzeQuestion qPar).estimated_searches = (analyzeQuestion qPar).sub_questions.length := by
  have h := strategy_selection_amended qPar
  exact ⟨(h.2 (by decide)).2.1 (by decide), (h.2 (by decide)).2.2⟩

/-- A failing call on a closed breaker just counts the failure, tripping
to `OPEN` exactly when the threshold is reached. -/
theorem call_closed_fail (cb : CircuitBreaker) (t : ℚ) (h1 : cb.state = "CLOSED") :
    (cb.call t (Except.error "boom" : Except String Unit)).1 =
      { cb with failure_count := cb.failure_count + 1, last_failure_time := some t
                state := if cb.failure_threshold ≤ cb.failure_count + 1 then "OPEN" else "CLOSED" } := by
  have hne : ¬ cb.state = "OPEN" := by rw [h1]; decide
  simp only [CircuitBreaker.call, if_neg hne, CircuitBreaker.onFailure]
  split_ifs with h
  · rfl
  · rw [← h1]

/-- Running `k ≤ threshold - count` consecutive failing calls from a
closed breaker adds `k` to the failure count and opens the breaker
exactly when the threshold is reached. -/
theorem failTimes_progress (ts : List ℚ) : ∀ (cb : CircuitBreaker),
    cb.state = "CLOSED" → cb.failure_count < cb.failure_threshold →
    cb.failure_count + ts.length ≤ cb.failure_threshold →
    (failTimes cb ts).failure_count = cb.failure_count + ts.length ∧
    (failTimes cb ts).failure_threshold = cb.failure_threshold ∧
    (failTimes cb ts).state =
      (if cb.failure_threshold ≤ cb.failure_count + ts.length then "OPEN" else "CLOSED") := by
  induction ts with
  | nil =>
    intro cb h1 h2 _
    refine ⟨by simp [failTimes], rfl, ?_⟩
    simp only [failTimes, List.foldl_nil, List.length_nil, Nat.add_zero]
    rw [if_neg (by omega)]
    exact h1
  | cons t rest ih =>
    intro cb h1 h2 h3
    simp only [List.length_cons] at h3
    have hstep : failTimes cb (t :: rest) =
        failTimes ((cb.call t (Except.error "boom" : Except String Unit)).1) rest := rfl
    rw [hstep, call_closed_fail cb t h1]
    by_cases hft : cb.failure_threshold ≤ cb.failure_count + 1
    · have hrest : rest = [] := List.length_eq_zero.mp (by omega)
      subst hrest
      rw [if_pos hft]
      refine ⟨by simp [failTimes], rfl, ?_⟩
      simp only [failTimes, List.foldl_nil, List.length_cons, List.length_nil]
      rw [if_pos (by omega)]
    · rw [if_neg hft]
      obtain ⟨i1, i2, i3⟩ := ih
        { cb with failure_count := cb.failure_count + 1, last_failure_time := some t
                  state := "CLOSED" } rfl (by simp only []; omega) (by simp only []; omega)
      simp only [] at i1 i2 i3
      refine ⟨?_, ?_, ?_⟩
      · rw [i1, List.length_cons]; omega
      · rw [i2]
      · rw [i3, List.length_cons]
        by_cases hle : cb.failure_threshold ≤ cb.failure_count + 1 + rest.length
        · rw [if_pos hle, if_pos (by omega)]
        · rw [if_neg hle, if_neg (by omega)]

/-- C2: starting from a fresh (Closed, failure count 0) breaker, a run
of `failureThreshold` consecutive failing calls leaves the breaker
`OPEN`; and any call attempted on an `OPEN` breaker strictly less than
`recoveryTimeout` seconds after the last failure returns the
circuit-open error immediately, without invoking the provider (the
invoked flag is `false` and the breaker state is unchanged). -/
theorem circuit_breaker_trip_and_open (ft : Nat) (rt : ℚ) (ts : List ℚ)
    (hft : 1 ≤ ft) (hlen : ts.length = ft) :
    (failTimes (CircuitBreaker.init ft rt) ts).state = "OPEN" ∧
    (∀ (cb : CircuitBreaker) (now lf : ℚ) (p : Except String Unit),
      cb.state = "OPEN" → cb.last_failure_time = some lf →
      now - lf < cb.recovery_timeout →
      cb.call now p = (cb, Except.error "Circuit breaker is OPEN", false)) := by
  constructor
  · obtain ⟨-, -, h3⟩ := failTimes_progress ts (CircuitBreaker.init ft rt) rfl
      (by simpa [CircuitBreaker.init] using hft) (by simp [CircuitBreaker.init, hlen])
    rw [h3]
    simp only [CircuitBreaker.init]
    rw [if_pos (by omega)]
  · intro cb now lf p h1 h2 h3
    unfold CircuitBreaker.call
    simp only [h1, h2, Option.getD_some, eq_self_iff_true, if_true]
    rw [if_neg (lt_asymm h3)]

/-- C2 (witness): with the default threshold 5 and recovery timeout 60,
five failing calls open the breaker, and a sixth call one second after
the last failure does not invoke the provider. -/
theorem circuit_breaker_trip_and_open_witness :
    (failTimes (CircuitBreaker.init 5 60) [1, 2, 3, 4, 5]).state = "OPEN" ∧
    ((failTimes (CircuitBreaker.init 5 60) [1, 2, 3, 4, 5]).call 6
        (Except.ok () : Except String Unit)).2.2 = false := by
  have h := circuit_breaker_trip_and_open 5 60 [1, 2, 3, 4, 5] (by decide) (by decide)
  refine ⟨h.1, ?_⟩
  have hrt : (failTimes (CircuitBreaker.init 5 60) [1, 2, 3, 4, 5]).recovery_timeout = 60 := by
    decide
  have h2 := h.2 (failTimes (CircuitBreaker.init 5 60) [1, 2, 3, 4, 5]) 6 5
    (Except.ok ()) h.1 (by decide) (by rw [hrt]; norm_num)
  rw [h2]

/-- One retry step on an HTTP 429 outcome: fixed 60-second sleep, then
the next attempt — consuming one unit of remaining budget. -/
theorem performRetryAux_429 (mr : Nat) (f : Nat → FetchOutcome) (now : ℚ) (q : String)
    (n attempt : Nat) (lastExc : Option String) (sleeps : List ℚ)
    (hf : f attempt = FetchOutcome.httpError 429) :
    performRetryAux mr f now q (n + 1) attempt lastExc sleeps =
      performRetryAux mr f now q n (attempt + 1) (some "HTTP 429") (sleeps ++ [60]) := by
  simp only [performRetryAux, hf]
  rfl

/-- One retry step on a successful provider outcome. -/
theorem performRetryAux_ok (mr : Nat) (f : Nat → FetchOutcome) (now : ℚ) (q : String)
    (n attempt : Nat) (lastExc : Option String) (sleeps : List ℚ) (items : List ProviderItem)
    (hf : f attempt = FetchOutcome.ok items) :
    performRetryAux mr f now q (n + 1) attempt lastExc sleeps =
      (Except.ok (items.map (mkRawResult now q)), sleeps) := by
  simp only [performRetryAux, hf]

/-- Exhausted budget raises with the last recorded error. -/
theorem performRetryAux_zero (mr : Nat) (f : Nat → FetchOutcome) (now : ℚ) (q : String)
    (attempt : Nat) (lastExc : Option String) (sleeps : List ℚ) :
    performRetryAux mr f now q 0 attempt lastExc sleeps =
      (Except.error (retryFailMsg mr lastExc), sleeps) := rfl

/-- Under a provider that answers 429 on the first `k` attempts and
succeeds afterwards, a run that still has budget past the 429s succeeds
after `k - attempt` fixed 60-second cooldowns. -/
theorem retry429_ok_general (mr k : Nat) (items : List ProviderItem) (now : ℚ) (q : String) :
    ∀ (n attempt : Nat) (lastExc : Option String) (sleeps : List ℚ),
      attempt + n = mr → attempt ≤ k → k < mr →
      performRetryAux mr (fun i => if i < k then FetchOutcome.httpError 429 else FetchOutcome.ok items)
          now q n attempt lastExc sleeps =
        (Except.ok (items.map (mkRawResult now q)), sleeps ++ List.replicate (k - attempt) 60) := by
  intro n
  induction n with
  | zero => intro attempt lastExc sleeps h1 h2 h3; omega
  | succ n ih =>
    intro attempt lastExc sleeps h1 h2 h3
    by_cases hk : attempt < k
    · rw [performRetryAux_429 mr _ now q n attempt lastExc sleeps (by simp [hk])]
      rw [ih (attempt + 1) (some "HTTP 429") (sleeps ++ [60]) (by omega) (by omega) h3]
      rw [List.append_assoc]
      have hke : k - attempt = (k - (attempt + 1)) + 1 := by omega
      rw [hke, List.replicate_succ, List.singleton_append]
    · have ha : ¬ attempt < k := hk
      rw [performRetryAux_ok mr _ now q n attempt lastExc sleeps items (by simp [ha])]
      have hke : k - attempt = 0 := by omega
      rw [hke, List.replicate, List.append_nil]

/-- Under a provider that always answers 429 within the budget, every
attempt sleeps the fixed 60 seconds and the run raises with the 429
error once the budget is exhausted: each 429 consumes a retry slot. -/
theorem retry429_fail_general (mr k : Nat) (items : List ProviderItem) (now : ℚ) (q : String) :
    ∀ (n attempt : Nat) (lastExc : Option String) (sleeps : List ℚ),
      attempt + n = mr → mr ≤ k →
      performRetryAux mr (fun i => if i < k then FetchOutcome.httpError 429 else FetchOutcome.ok items)
          now q n attempt lastExc sleeps =
        (Except.error (retryFailMsg mr (if n = 0 then lastExc else some "HTTP 429")),
          sleeps ++ List.replicate n 60) := by
  intro n
  induction n with
  | zero =>
    intro attempt lastExc sleeps h1 h2
    rw [performRetryAux_zero, if_pos rfl, List.replicate, List.append_nil]
  | succ n ih =>
    intro attempt lastExc sleeps h1 h2
    have hk : attempt < k := by omega
    rw [performRetryAux_429 mr _ now q n attempt lastExc sleeps (by simp [hk])]
    rw [ih (attempt + 1) (some "HTTP 429") (sleeps ++ [60]) (by omega) h2]
    rw [List.append_assoc, if_neg (by omega : ¬ n + 1 = 0)]
    rw [show (if n = 0 then (some "HTTP 429" : Option String) else some "HTTP 429") = some "HTTP 429"
      from ite_self _]
    rw [List.replicate_succ, List.singleton_append]

/-- C4 (counterexample): with `maxRetries = 3`, three consecutive HTTP
429 responses exhaust the retry budget: even though the provider would
succeed from the fourth attempt on, `_perform_search_with_retry` raises
(after the three fixed 60-second cooldowns) and performs no non-429
attempt at all — contradicting the claim that with `k` consecutive 429
responses followed by successes the run can still perform up to 3
non-429 attempts. -/
theorem rate_limit_counterexample :
    performSearchWithRetry 3
        (fun i => if i < 3 then FetchOutcome.httpError 429 else FetchOutcome.ok [itemA]) 0 "q" =
      (Except.error ("Échec après 3 tentatives. Dernière erreur: HTTP 429"),
        ([60, 60, 60] : List ℚ)) := rfl

/-- C4 (amended): an HTTP 429 response causes a fixed 60-second cooldown
followed by a retry, but the retry consumes a retry slot: with `k`
consecutive 429 responses followed by successes, the call succeeds after
exactly `k` cooldowns when `k < maxRetries`, and raises after exactly
`maxRetries` cooldowns (having made no non-429 attempt) when
`k ≥ maxRetries`. -/
theorem rate_limit_429_amended (mr k : Nat) (items : List ProviderItem) (now : ℚ) (q : String) :
    (k < mr →
      performSearchWithRetry mr
          (fun i => if i < k then FetchOutcome.httpError 429 else FetchOutcome.ok items) now q =
        (Except.ok (items.map (mkRawResult now q)), List.replicate k 60)) ∧
    (0 < mr → mr ≤ k →
      performSearchWithRetry mr
          (fun i => if i < k then FetchOutcome.httpError 429 else FetchOutcome.ok items) now q =
        (Except.error (retryFailMsg mr (some "HTTP 429")), List.replicate mr 60)) := by
  constructor
  · intro h
    unfold performSearchWithRetry
    rw [retry429_ok_general mr k items now q mr 0 none [] (by omega) (by omega) h]
    rw [List.nil_append, Nat.sub_zero]
  · intro h0 hk
    unfold performSearchWithRetry
    rw [retry429_fail_general mr k items now q mr 0 none [] (by omega) hk]
    rw [List.nil_append, if_neg (by omega : ¬ mr = 0)]

/-- C4 (amended, witness): `maxRetries = 3` with two 429s then success,
and with five 429s. -/
theorem rate_limit_429_amended_witness :
    performSearchWithRetry 3
        (fun i => if i < 2 then FetchOutcome.httpError 429 else FetchOutcome.ok [itemA]) 0 "q" =
      (Except.ok ([itemA].map (mkRawResult 0 "q")), List.replicate 2 60) ∧
    performSearchWithRetry 3
        (fun i => if i < 5 then FetchOutcome.httpError 429 else FetchOutcome.ok [itemA]) 0 "q" =
      (Except.error (retryFailMsg 3 (some "HTTP 429")), List.replicate 3 60) :=
  ⟨(rate_limit_429_amended 3 2 [itemA] 0 "q").1 (by omega),
   (rate_limit_429_amended 3 5 [itemA] 0 "q").2 (by omega) (by omega)⟩

/-- Every result that survives `_validate_results` has an absolute
http(s) URL, non-empty stripped title and snippet, and meets the length
thresholds. -/
theorem validateResults_sound (rs : List RawResult) (r : RawResult)
    (hr : r ∈ validateResults rs) :
    startsWithHttp r.url = true ∧ r.title.isEmpty = false ∧ r.snippet.isEmpty = false ∧
    3 ≤ r.title.length ∧ 10 ≤ r.snippet.length := by
  obtain ⟨a, ha, hfa⟩ := List.mem_filterMap.mp hr
  split_ifs at hfa with h1 h2 h3
  push_neg at h2 h3
  have hfa' : { a with title := stripS a.title, snippet := stripS a.snippet } = r := by
    simpa using hfa
  subst hfa'
  exact ⟨by simpa using h1, by simpa using h2.1, by simpa using h2.2, h3.1, h3.2⟩

/-- `search` in terms of the circuit-breaker call on the retried
provider attempt. -/
theorem search_eval (eng : WebSearchEngine) (outcomes : Nat → FetchOutcome) (now : ℚ)
    (q : String) (maxResults : Option Nat) :
    eng.search outcomes now q maxResults =
      match eng.circuit_breaker.call now (performSearchWithRetry eng.max_retries outcomes now q).1 with
      | (cb, Except.ok raw, _) => (validateResults raw, { eng with circuit_breaker := cb })
      | (cb, Except.error _, _) => ([], { eng with circuit_breaker := cb }) := rfl

/-- C3 (counterexample): with a provider that times out on every
attempt, the retry sequence exhausts its budget and raises — yet
`search` catches the exception and RETURNS NORMALLY with the empty
list: the caller observes `[]`, not an error, contradicting the claimed
`SearchUnavailable` failure; the embedded `search` has no error channel
at all, exactly like the source, whose `except` clause returns `[]`. -/
theorem search_swallows_failure_counterexample :
    (performSearchWithRetry WebSearchEngine.default.max_retries (fun _ => FetchOutcome.timeout)
        0 "q").1 = Except.error "Échec après 3 tentatives. Dernière erreur: Timeout" ∧
    (WebSearchEngine.default.search (fun _ => FetchOutcome.timeout) 0 "q" none).1 = [] :=
  ⟨rfl, rfl⟩

/-- C3 (amended): `search` never fails: when the circuit-breaker-guarded
retried call succeeds it returns the validated results (each with an
absolute http(s) URL and title/snippet meeting the length thresholds),
and when it raises — retries exhausted, circuit open, or any other error
— `search` returns the empty list as a normal value. -/
theorem search_amended_contract (eng : WebSearchEngine) (outcomes : Nat → FetchOutcome)
    (now : ℚ) (q : String) (maxResults : Option Nat) :
    (∀ r ∈ (eng.search outcomes now q maxResults).1,
      startsWithHttp r.url = true ∧ 3 ≤ r.title.length ∧ 10 ≤ r.snippet.length) ∧
    (∀ e, (eng.circuit_breaker.call now
        (performSearchWithRetry eng.max_retries outcomes now q).1).2.1 = Except.error e →
      (eng.search outcomes now q maxResults).1 = []) ∧
    (∀ raw, (eng.circuit_breaker.call now
        (performSearchWithRetry eng.max_retries outcomes now q).1).2.1 = Except.ok raw →
      (eng.search outcomes now q maxResults).1 = validateResults raw) := by
  rcases hE : eng.circuit_breaker.call now (performSearchWithRetry eng.max_retries outcomes now q).1
    with ⟨cb, res, inv⟩
  cases res with
  | ok raw =>
    have hs : (eng.search outcomes now q maxResults).1 = validateResults raw := by
      rw [search_eval, hE]
    refine ⟨?_, ?_, ?_⟩
    · intro r hr
      rw [hs] at hr
      obtain ⟨p1, -, -, p4, p5⟩ := validateResults_sound raw r hr
      exact ⟨p1, p4, p5⟩
    · intro e he
      simp at he
    · intro raw' h'
      have : raw = raw' := by simpa using h'
      rw [hs, this]
  | error e0 =>
    have hs : (eng.search outcomes now q maxResults).1 = [] := by
      rw [search_eval, hE]
    refine ⟨?_, ?_, ?_⟩
    · intro r hr
      rw [hs] at hr
      simp at hr
    · intro e _
      exact hs
    · intro raw h'
      simp at h'

/-- C3 (amended, witness): the default engine on an always-timing-out
provider returns `[]`, and on a healthy provider returns the validated
results, whose first entry meets the validation bounds. -/
theorem search_amended_contract_witness :
    (WebSearchEngine.default.search (fun _ => FetchOutcome.timeout) 0 "qq" none).1 = [] ∧
    (WebSearchEngine.default.search (fun _ => FetchOutcome.ok [itemA]) 0 "qq" none).1 =
      validateResults [mkRawResult 0 "qq" itemA] ∧
    3 ≤ (mkRawResult 0 "qq" itemA).title.length := by
  refine ⟨?_, ?_, ?_⟩
  · exact (search_amended_contract WebSearchEngine.default (fun _ => FetchOutcome.timeout)
      0 "qq" none).2.1 "Échec après 3 tentatives. Dernière erreur: Timeout" rfl
  · exact (search_amended_contract WebSearchEngine.default (fun _ => FetchOutcome.ok [itemA])
      0 "qq" none).2.2 [mkRawResult 0 "qq" itemA] rfl
  · exact ((search_amended_contract WebSearchEngine.default (fun _ => FetchOutcome.ok [itemA])
      0 "qq" none).1 (mkRawResult 0 "qq" itemA) (by decide)).2.1

/-- Diversification only drops chunks: the output is a sublist. -/
theorem diversifyAux_sublist (maxPer : Nat) :
    ∀ (counts : String → Nat) (l : List ScoredChunk),
      List.Sublist (diversifySourcesAux maxPer counts l) l := by
  intro counts l
  induction l generalizing counts with
  | nil => simp [diversifySourcesAux]
  | cons c rest ih =>
    simp only [diversifySourcesAux]
    split_ifs with h
    · exact List.Sublist.cons₂ c (ih _)
    · exact List.Sublist.cons c (ih _)

/-- Diversification caps every source type at `maxPer`, counting from
the running `source_counts`. -/
theorem diversifyAux_countP (maxPer : Nat) (s : String) :
    ∀ (counts : String → Nat) (l : List ScoredChunk),
      (diversifySourcesAux maxPer counts l).countP
          (fun c => c.chunk.source_type.getD "unknown" == s) ≤ maxPer - counts s := by
  intro counts l
  induction l generalizing counts with
  | nil => simp [diversifySourcesAux]
  | cons c rest ih =>
    simp only [diversifySourcesAux]
    split_ifs with h
    · rw [List.countP_cons]
      by_cases hs : c.chunk.source_type.getD "unknown" = s
      · subst hs
        have hci := ih (fun t => if t = c.chunk.source_type.getD "unknown" then
            counts (c.chunk.source_type.getD "unknown") + 1 else counts t)
        rw [if_pos rfl] at hci
        simp only [beq_self_eq_true, if_pos]
        omega
      · have hci := ih (fun t => if t = c.chunk.source_type.getD "unknown" then
            counts (c.chunk.source_type.getD "unknown") + 1 else counts t)
        rw [if_neg (fun he => hs he.symm)] at hci
        have hbe : (c.chunk.source_type.getD "unknown" == s) = false := beq_false_of_ne hs
        rw [hbe]
        simpa using hci
    · exact ih counts

/-- C9: the fusion of any local and web chunk lists returns at most 10
chunks, at most 3 of any single source type (counting the `"unknown"`
default), sorted by descending relevance score with every score clamped
to [0, 1]; and the output is a sublist of the stable descending sort of
the scored input (Python `sorted` is stable, so ties keep the input
order: local before web at equal score), which is how the relative input
order of the kept chunks is preserved. -/
theorem fuse_results_spec (now : ℚ) (localResults webResults : List Chunk) :
    (fuseResults now localResults webResults).length ≤ 10 ∧
    (∀ s : String, (fuseResults now localResults webResults).countP
        (fun c => c.chunk.source_type.getD "unknown" == s) ≤ 3) ∧
    List.Sorted scoreGE (fuseResults now localResults webResults) ∧
    (∀ c ∈ fuseResults now localResults webResults,
      0 ≤ c.relevance_score ∧ c.relevance_score ≤ 1) ∧
    List.Sublist (fuseResults now localResults webResults)
      (((localResults ++ webResults).map (scoreChunk now)).insertionSort scoreGE) := by
  have hsub1 : List.Sublist
      (diversifySources
        (((localResults ++ webResults).map (scoreChunk now)).insertionSort scoreGE) 3)
      (((localResults ++ webResults).map (scoreChunk now)).insertionSort scoreGE) :=
    diversifyAux_sublist 3 (fun _ => 0) _
  have hout : List.Sublist (fuseResults now localResults webResults)
      (((localResults ++ webResults).map (scoreChunk now)).insertionSort scoreGE) := by
    unfold fuseResults
    exact (List.take_sublist _ _).trans hsub1
  refine ⟨?_, ?_, ?_, ?_, hout⟩
  · unfold fuseResults
    exact List.length_take_le _ _
  · intro s
    have h1 := diversifyAux_countP 3 s (fun _ => 0)
      (((localResults ++ webResults).map (scoreChunk now)).insertionSort scoreGE)
    have h2 : List.Sublist (fuseResults now localResults webResults)
        (diversifySources
          (((localResults ++ webResults).map (scoreChunk now)).insertionSort scoreGE) 3) := by
      unfold fuseResults
      exact List.take_sublist _ _
    exact le_trans (h2.countP_le _) (by simpa using h1)
  · exact List.Pairwise.sublist hout (List.sorted_insertionSort scoreGE _)
  · intro c hc
    have hmem : c ∈ ((localResults ++ webResults).map (scoreChunk now)).insertionSort scoreGE :=
      hout.subset hc
    have hmem2 : c ∈ (localResults ++ webResults).map (scoreChunk now) :=
      (List.mem_insertionSort scoreGE).mp hmem
    obtain ⟨orig, -, rfl⟩ := List.mem_map.mp hmem2
    unfold scoreChunk calculateRelevanceScore
    exact ⟨le_max_left _ _, max_le (by norm_num) (min_le_left _ _)⟩

/-- C9 (witness): a concrete one-chunk instance; the local chunk is kept
with a clamped score. -/
theorem fuse_results_spec_witness :
    (fuseResults 0 [chunkLocal] []).length ≤ 10 ∧
    (fuseResults 0 [chunkLocal] []).countP
      (fun c => c.chunk.source_type.getD "unknown" == "local") ≤ 3 ∧
    (0 ≤ (scoreChunk 0 chunkLocal).relevance_score ∧
      (scoreChunk 0 chunkLocal).relevance_score ≤ 1) := by
  refine ⟨(fuse_results_spec 0 [chunkLocal] []).1,
    (fuse_results_spec 0 [chunkLocal] []).2.1 "local", ?_⟩
  refine (fuse_results_spec 0 [chunkLocal] []).2.2.2.1 (scoreChunk 0 chunkLocal) ?_
  rw [show fuseResults 0 [chunkLocal] [] = [scoreChunk 0 chunkLocal] from rfl]
  exact List.mem_cons_self _ _

/-- `add_interaction` changes neither the capacity nor the TTL. -/
theorem addInteraction_fields (m : ConversationMemory) (now : ℚ) (q : String) (r : PipeResp) :
    (m.addInteraction now q r).max_memory = m.max_memory ∧
    (m.addInteraction now q r).ttl_hours = m.ttl_hours := by
  simp only [ConversationMemory.addInteraction, ConversationMemory.cleanupExpired]
  exact ⟨trivial, trivial⟩

/-- `add_interaction` keeps the store within the capacity. -/
theorem addInteraction_length (m : ConversationMemory) (now : ℚ) (q : String) (r : PipeResp)
    (h : m.interactions.length ≤ m.max_memory) :
    (m.addInteraction now q r).interactions.length ≤ m.max_memory := by
  simp only [ConversationMemory.addInteraction, ConversationMemory.cleanupExpired]
  refine le_trans (List.length_filter_le _ _) ?_
  split_ifs with hc
  · rw [List.length_tail]
    simp only [List.length_append, List.length_singleton]
    omega
  · simp only [List.length_append, List.length_singleton] at hc ⊢
    omega

/-- The store after `add_interaction` is a sublist of the old store with
the new entry appended. -/
theorem addInteraction_sublist (m : ConversationMemory) (now : ℚ) (q : String) (r : PipeResp) :
    List.Sublist (m.addInteraction now q r).interactions
      (m.interactions ++ [mkInteraction now q r]) := by
  simp only [ConversationMemory.addInteraction, ConversationMemory.cleanupExpired]
  refine List.Sublist.trans (List.filter_sublist _) ?_
  split_ifs with hc
  · exact List.tail_sublist _
  · exact List.Sublist.refl _

/-- `add_interaction` preserves chronological order when the new entry
is at least as recent as everything stored. -/
theorem addInteraction_sorted (m : ConversationMemory) (now : ℚ) (q : String) (r : PipeResp)
    (hs : List.Pairwise (fun i j : Interaction => i.timestamp ≤ j.timestamp) m.interactions)
    (hb : ∀ i ∈ m.interactions, i.timestamp ≤ now) :
    List.Pairwise (fun i j : Interaction => i.timestamp ≤ j.timestamp)
      (m.addInteraction now q r).interactions := by
  have happ : List.Pairwise (fun i j : Interaction => i.timestamp ≤ j.timestamp)
      (m.interactions ++ [mkInteraction now q r]) := by
    refine List.pairwise_append.mpr ⟨hs, List.pairwise_singleton _ _, ?_⟩
    intro a ha b hbm
    have hb2 : b = mkInteraction now q r := by
      simpa using hbm
    rw [hb2]
    exact hb a ha
  exact List.Pairwise.sublist (addInteraction_sublist m now q r) happ

/-- Invariant of a run of records with nondecreasing times: capacity and
TTL are those of the start state, the store stays within capacity, and
it stays in chronological order. -/
theorem runMemory_inv (ops : List (ℚ × String × PipeResp)) : ∀ (m : ConversationMemory),
    m.interactions.length ≤ m.max_memory →
    List.Pairwise (fun i j : Interaction => i.timestamp ≤ j.timestamp) m.interactions →
    (∀ i ∈ m.interactions, ∀ op ∈ ops, i.timestamp ≤ op.1) →
    List.Pairwise (fun a b : ℚ × String × PipeResp => a.1 ≤ b.1) ops →
    (runMemory m ops).max_memory = m.max_memory ∧
    (runMemory m ops).ttl_hours = m.ttl_hours ∧
    (runMemory m ops).interactions.length ≤ m.max_memory ∧
    List.Pairwise (fun i j : Interaction => i.timestamp ≤ j.timestamp)
      (runMemory m ops).interactions := by
  induction ops with
  | nil =>
    intro m h1 h2 _ _
    exact ⟨rfl, rfl, h1, h2⟩
  | cons op rest ih =>
    intro m h1 h2 h3 h4
    have hfields := addInteraction_fields m op.1 op.2.1 op.2.2
    have hlen := addInteraction_length m op.1 op.2.1 op.2.2 h1
    have hsort := addInteraction_sorted m op.1 op.2.1 op.2.2 h2
      (fun i hi => h3 i hi op (List.mem_cons_self _ _))
    have hsub := addInteraction_sublist m op.1 op.2.1 op.2.2
    have hop := List.pairwise_cons.mp h4
    have hbound : ∀ i ∈ (m.addInteraction op.1 op.2.1 op.2.2).interactions,
        ∀ op' ∈ rest, i.timestamp ≤ op'.1 := by
      intro i hi op' hop'
      rcases List.mem_append.mp (hsub.subset hi) with hin | hnew
      · exact h3 i hin op' (List.mem_cons_of_mem _ hop')
      · have hi2 : i = mkInteraction op.1 op.2.1 op.2.2 := by
          simpa using hnew
        rw [hi2]
        exact hop.1 op' hop'
    obtain ⟨f1, f2, f3, f4⟩ := ih (m.addInteraction op.1 op.2.1 op.2.2)
      (by rw [hfields.1]; exact hlen) hsort hbound hop.2
    refine ⟨?_, ?_, ?_, f4⟩
    · rw [show runMemory m (op :: rest) = runMemory (m.addInteraction op.1 op.2.1 op.2.2) rest
        from rfl, f1, hfields.1]
    · rw [show runMemory m (op :: rest) = runMemory (m.addInteraction op.1 op.2.1 op.2.2) rest
        from rfl, f2, hfields.2]
    · rw [show runMemory m (op :: rest) = runMemory (m.addInteraction op.1 op.2.1 op.2.2) rest
        from rfl]
      rw [hfields.1] at f3
      exact f3

/-- C8 (counterexample): record one interaction at time 0 into a memory
with TTL 24 hours; `get_recent_context` at time 30 with a 48-hour window
returns that interaction, which is 30 hours old — older than `ttlHours`.
The TTL purge runs only inside `add_interaction`, so a lookup window
larger than the TTL can return expired entries. -/
theorem memory_ttl_counterexample :
    (runMemory (ConversationMemory.init 10 24) [((0 : ℚ), "q", respNil)]).ttl_hours = 24 ∧
    ((runMemory (ConversationMemory.init 10 24)
        [((0 : ℚ), "q", respNil)]).getRecentContext 30 48).map (fun i => i.timestamp) = [0] ∧
    (24 : ℚ) < 30 - 0 := by
  have harith : ((0 : ℚ) - 24 < 0) := by norm_num
  have hmem : runMemory (ConversationMemory.init 10 24) [((0 : ℚ), "q", respNil)] =
      { max_memory := 10, ttl_hours := 24, interactions := [mkInteraction 0 "q" respNil] } := by
    simp [runMemory, ConversationMemory.addInteraction, ConversationMemory.cleanupExpired,
      ConversationMemory.init, mkInteraction, harith]
  have harith2 : ((30 : ℚ) - 48 < 0) := by norm_num
  refine ⟨by rw [hmem], ?_, by norm_num⟩
  rw [hmem]
  simp [ConversationMemory.getRecentContext, mkInteraction, harith2]

/-- C8 (amended): over any run of records with nondecreasing timestamps
the store never exceeds `maxMemory`; `recentContext` returns at most the
five most recent entries, most-recent last (chronological order), each
strictly within the lookup window — hence never older than `ttlHours`
PROVIDED the lookup window is at most `ttlHours` (the TTL purge runs
only on record, so larger windows can return expired entries). -/
theorem memory_bounds_amended (maxM : Nat) (ttl : ℚ) (ops : List (ℚ × String × PipeResp))
    (now hours : ℚ)
    (hmono : List.Pairwise (fun a b : ℚ × String × PipeResp => a.1 ≤ b.1) ops)
    (hh : hours ≤ ttl) :
    (runMemory (ConversationMemory.init maxM ttl) ops).interactions.length ≤ maxM ∧
    ((runMemory (ConversationMemory.init maxM ttl) ops).getRecentContext now hours).length ≤ 5 ∧
    List.Pairwise (fun i j : Interaction => i.timestamp ≤ j.timestamp)
      ((runMemory (ConversationMemory.init maxM ttl) ops).getRecentContext now hours) ∧
    (∀ i ∈ (runMemory (ConversationMemory.init maxM ttl) ops).getRecentContext now hours,
      now - i.timestamp < hours ∧ now - i.timestamp < ttl) := by
  obtain ⟨-, -, f3, f4⟩ := runMemory_inv ops (ConversationMemory.init maxM ttl)
    (by simp [ConversationMemory.init]) (by simp [ConversationMemory.init])
    (by simp [ConversationMemory.init]) hmono
  refine ⟨f3, ?_, ?_, ?_⟩
  · simp only [ConversationMemory.getRecentContext]
    rw [List.length_drop]
    omega
  · simp only [ConversationMemory.getRecentContext]
    exact List.Pairwise.sublist (List.drop_sublist _ _) (List.Pairwise.filter _ f4)
  · intro i hi
    simp only [ConversationMemory.getRecentContext] at hi
    have hi2 := (List.drop_sublist _ _).subset hi
    have hts : now - hours < i.timestamp := by simpa using (List.mem_filter.mp hi2).2
    constructor
    · linarith
    · linarith

/-- C8 (amended, witness): one record at time 0 with the default
capacity 10 and TTL 24, looked up at time 30 with the default one-hour
window. -/
theorem memory_bounds_amended_witness :
    (runMemory (ConversationMemory.init 10 24) [((0 : ℚ), "q", respNil)]).interactions.length ≤ 10 ∧
    ((runMemory (ConversationMemory.init 10 24)
        [((0 : ℚ), "q", respNil)]).getRecentContext 30 1).length ≤ 5 := by
  have h := memory_bounds_amended 10 24 [((0 : ℚ), "q", respNil)] 30 1 (by simp) (by norm_num)
  exact ⟨h.1, h.2.1⟩

/-- C1: `answer_question` never raises — the embedding is a total
function into `AgentResponse`, every collaborator exception being a
caught `Except.error` from the strategy dispatch.  When the agent is
unavailable at construction it returns the degraded response with
`search_strategy = "unavailable"` and no error field; when any retrieval
round raises, the exception is caught at the top level and converted
into the degraded response with `search_strategy = "error"` carrying
the error detail; on success the response carries the analysis
strategy and the pipeline error field. -/
theorem answer_question_error_handling {σ : Type}
    (round : σ → String → Bool → σ × Except String PipeResp) (available : Bool) (st : σ)
    (stats : AgentStats) (q : String) (maxDepth : Nat) (elapsed : ℚ) :
    (available = false →
      (answerQuestion round available st stats q maxDepth elapsed).2.2 =
        unavailableResponse elapsed ∧
      (unavailableResponse elapsed).search_strategy = "unavailable" ∧
      (unavailableResponse elapsed).error = none) ∧
    (∀ e, available = true →
      (dispatchStrategy round st q (analyzeQuestion q) maxDepth).2 = Except.error e →
      (answerQuestion round available st stats q maxDepth elapsed).2.2 = errorResponse e elapsed ∧
      (errorResponse e elapsed).search_strategy = "error" ∧
      (errorResponse e elapsed).error = some e) ∧
    (∀ r, available = true →
      (dispatchStrategy round st q (analyzeQuestion q) maxDepth).2 = Except.ok r →
      (answerQuestion round available st stats q maxDepth elapsed).2.2.search_strategy =
        (analyzeQuestion q).search_strategy ∧
      (answerQuestion round available st stats q maxDepth elapsed).2.2.error = r.error) := by
  rcases hp : dispatchStrategy round st q (analyzeQuestion q) maxDepth with ⟨st2, res⟩
  refine ⟨?_, ?_, ?_⟩
  · intro hav
    subst hav
    exact ⟨rfl, rfl, rfl⟩
  · intro e hav hd
    subst hav
    have hres : res = Except.error e := by simpa using hd
    subst hres
    refine ⟨?_, rfl, rfl⟩
    simp only [answerQuestion]
    rw [hp]
    rfl
  · intro r hav hok
    subst hav
    have hres : res = Except.ok r := by simpa using hok
    subst hres
    constructor
    · simp only [answerQuestion]
      rw [hp]
      rfl
    · simp only [answerQuestion]
      rw [hp]
      rfl

/-- C1 (witness): a round that always raises, at a concrete question;
plus the unavailable case. -/
theorem answer_question_error_handling_witness :
    (answerQuestion roundFail false () stats0 "hi" 3 0).2.2 = unavailableResponse 0 ∧
    (answerQuestion roundFail true () stats0 "hi" 3 0).2.2 = errorResponse "boom" 0 ∧
    (errorResponse "boom" (0 : ℚ)).search_strategy = "error" ∧
    (errorResponse "boom" (0 : ℚ)).error = some "boom" := by
  have h1 := answer_question_error_handling roundFail false () stats0 "hi" 3 0
  have h2 := answer_question_error_handling roundFail true () stats0 "hi" 3 0
  have h3 := h2.2.1 "boom" rfl (by rfl)
  exact ⟨(h1.1 rfl).1, h3.1, h3.2.1, h3.2.2⟩

/-- One pipeline round appends exactly one interaction (the counter
advances by one) and never raises. -/
theorem pipelineRound_count (deps : PipelineDeps) (now : ℚ) (s : ConversationMemory × Nat)
    (q : String) (w : Bool) :
    (pipelineRound deps now s q w).1.2 = s.2 + 1 ∧
    (pipelineRound deps now s q w).2 =
      Except.ok (askQuestion deps s.1 s.2 now q w 3).2.2 :=
  ⟨rfl, rfl⟩

/-- A single-search round through the pipeline appends one interaction. -/
theorem execSingle_pipeline_count (deps : PipelineDeps) (now : ℚ)
    (s : ConversationMemory × Nat) (q : String) (an : Analysis) :
    (execSingleSearch (pipelineRound deps now) s q an).1.2 = s.2 + 1 := rfl

/-- The parallel loop through the pipeline appends one interaction per
sub-question. -/
theorem execParallelAux_pipeline_count (deps : PipelineDeps) (now : ℚ) (an : Analysis) :
    ∀ (qs : List String) (s : ConversationMemory × Nat),
      (execParallelAux (pipelineRound deps now) an s qs).1.2 = s.2 + qs.length := by
  intro qs
  induction qs with
  | nil => intro s; rfl
  | cons q rest ih =>
    intro s
    have hih := ih ((askQuestion deps s.1 s.2 now q an.needs_web 3).1,
      (askQuestion deps s.1 s.2 now q an.needs_web 3).2.1)
    rcases hr : execParallelAux (pipelineRound deps now) an
        ((askQuestion deps s.1 s.2 now q an.needs_web 3).1,
         (askQuestion deps s.1 s.2 now q an.needs_web 3).2.1) rest with ⟨st2, res2⟩
    rw [hr] at hih
    have hask : (askQuestion deps s.1 s.2 now q an.needs_web 3).2.1 = s.2 + 1 := rfl
    rw [hask] at hih
    simp only [execParallelAux, pipelineRound]
    rw [hr]
    rcases res2 with e | ⟨subs, webs, locs⟩
    · simp only [List.length_cons]
      simp only [] at hih
      omega
    · simp only [List.length_cons]
      simp only [] at hih
      omega

/-- The sequential loop through the pipeline appends one interaction per
executed step, cut off at `max_depth`. -/
theorem execSeqAux_pipeline_count (deps : PipelineDeps) (now : ℚ) (an : Analysis) (d : Nat) :
    ∀ (qs : List String) (i : Nat) (ctx : String) (s : ConversationMemory × Nat),
      (execSeqAux (pipelineRound deps now) an d qs i ctx s).1.2 =
        s.2 + min qs.length (d - i) := by
  intro qs
  induction qs with
  | nil => intro i ctx s; simp [execSeqAux]
  | cons q rest ih =>
    intro i ctx s
    by_cases hd : d ≤ i
    · have hdi : d - i = 0 := by omega
      simp [execSeqAux, if_pos hd, hdi]
    · have hih := ih (i + 1)
        (ctx ++ " " ++ (askQuestion deps s.1 s.2 now
          (if ctx.isEmpty then q else q ++ " (Contexte: " ++ takeS ctx 200 ++ "...)")
          an.needs_web 3).2.2.answer)
        ((askQuestion deps s.1 s.2 now
          (if ctx.isEmpty then q else q ++ " (Contexte: " ++ takeS ctx 200 ++ "...)")
          an.needs_web 3).1,
         (askQuestion deps s.1 s.2 now
          (if ctx.isEmpty then q else q ++ " (Contexte: " ++ takeS ctx 200 ++ "...)")
          an.needs_web 3).2.1)
      rcases hr : execSeqAux (pipelineRound deps now) an d rest (i + 1)
        (ctx ++ " " ++ (askQuestion deps s.1 s.2 now
          (if ctx.isEmpty then q else q ++ " (Contexte: " ++ takeS ctx 200 ++ "...)")
          an.needs_web 3).2.2.answer)
        ((askQuestion deps s.1 s.2 now
          (if ctx.isEmpty then q else q ++ " (Contexte: " ++ takeS ctx 200 ++ "...)")
          an.needs_web 3).1,
         (askQuestion deps s.1 s.2 now
          (if ctx.isEmpty then q else q ++ " (Contexte: " ++ takeS ctx 200 ++ "...)")
          an.needs_web 3).2.1) with ⟨st2, res2⟩
      rw [hr] at hih
      have hask : (askQuestion deps s.1 s.2 now
          (if ctx.isEmpty then q else q ++ " (Contexte: " ++ takeS ctx 200 ++ "...)")
          an.needs_web 3).2.1 = s.2 + 1 := rfl
      simp only [] at hih
      rw [hask] at hih
      simp only [execSeqAux, pipelineRound, if_neg hd]
      rw [hr]
      rcases res2 with e | steps
      · simp only [List.length_cons]
        omega
      · simp only [List.length_cons]
        omega

/-- One top-level request through the real pipeline appends one
interaction per retrieval round: one for strategy `single`, one per
sub-question for `parallel`, one per executed step (capped at
`max_depth`) for `sequential`. -/
theorem pipeline_rounds_appended (deps : PipelineDeps) (m : ConversationMemory) (a : Nat)
    (now : ℚ) (stats : AgentStats) (q : String) (d : Nat) (elapsed : ℚ) :
    (answerQuestion (pipelineRound deps now) true (m, a) stats q d elapsed).1.2 =
      a + (if (analyzeQuestion q).search_strategy = "single" then 1
        else if (analyzeQuestion q).search_strategy = "parallel" then
          (analyzeQuestion q).sub_questions.length
        else if (analyzeQuestion q).search_strategy = "sequential" then
          min (analyzeQuestion q).sub_questions.length d
        else 1) := by
  have hdisp : (answerQuestion (pipelineRound deps now) true (m, a) stats q d elapsed).1 =
      (dispatchStrategy (pipelineRound deps now) (m, a) q (analyzeQuestion q) d).1 := by
    rcases hE : dispatchStrategy (pipelineRound deps now) (m, a) q (analyzeQuestion q) d
      with ⟨st2, res⟩
    simp only [answerQuestion]
    rw [hE]
    cases res <;> rfl
  rw [hdisp]
  unfold dispatchStrategy
  by_cases h1 : (analyzeQuestion q).search_strategy = "single"
  · rw [if_pos h1, if_pos h1]
    exact execSingle_pipeline_count deps now (m, a) q _
  · rw [if_neg h1, if_neg h1]
    by_cases h2 : (analyzeQuestion q).search_strategy = "parallel"
    · rw [if_pos h2, if_pos h2]
      have hc := execParallelAux_pipeline_count deps now (analyzeQuestion q)
        (analyzeQuestion q).sub_questions (m, a)
      unfold execParallelSearch
      rcases hr : execParallelAux (pipelineRound deps now) (analyzeQuestion q) (m, a)
          (analyzeQuestion q).sub_questions with ⟨st2, res⟩
      rw [hr] at hc
      rcases res with e | ⟨subs, webs, locs⟩ <;> simpa using hc
    · rw [if_neg h2, if_neg h2]
      by_cases h3 : (analyzeQuestion q).search_strategy = "sequential"
      · rw [if_pos h3, if_pos h3]
        have hc := execSeqAux_pipeline_count deps now (analyzeQuestion q) d
          (analyzeQuestion q).sub_questions 0 "" (m, a)
        unfold execSequentialSearch
        rcases hr : execSeqAux (pipelineRound deps now) (analyzeQuestion q) d
            (analyzeQuestion q).sub_questions 0 "" (m, a) with ⟨st2, res⟩
        rw [hr] at hc
        simp only [Nat.sub_zero] at hc
        rcases res with e | steps <;> simpa using hc
      · rw [if_neg h3, if_neg h3]
        exact execSingle_pipeline_count deps now (m, a) q _

/-- C10 (counterexample): for the concrete 21-word question `qPar`,
whose analysis selects strategy `parallel` with two sub-questions, a
single top-level `answer_question` call appends TWO interactions to the
conversation memory — one per sub-question round, because every
`_execute_single_search` goes through `rag_pipeline.ask_question`, which
itself calls `memory.add_interaction` — not exactly one. -/
theorem one_interaction_counterexample :
    (analyzeQuestion qPar).search_strategy = "parallel" ∧
    (answerQuestion (pipelineRound deps0 0) true (ConversationMemory.init 10 24, 0) stats0 qPar 3
        0).1.2 = 2 ∧
    (2 : Nat) ≠ 1 := by
  refine ⟨by decide, ?_, by decide⟩
  rw [pipeline_rounds_appended deps0 (ConversationMemory.init 10 24) 0 0 stats0 qPar 3 0]
  decide

/-- C10 (amended): each top-level request appends exactly one
interaction per retrieval round it executes — a `single` request appends
one, a `parallel` request one per sub-question, a `sequential` request
one per executed step (at most `maxDepth`) — because the append happens
inside the pipeline `ask_question` invoked once per round. -/
theorem interactions_per_round (deps : PipelineDeps) (m : ConversationMemory) (a : Nat)
    (now : ℚ) (stats : AgentStats) (q : String) (d : Nat) (elapsed : ℚ) :
    (answerQuestion (pipelineRound deps now) true (m, a) stats q d elapsed).1.2 =
      a + (if (analyzeQuestion q).search_strategy = "single" then 1
        else if (analyzeQuestion q).search_strategy = "parallel" then
          (analyzeQuestion q).sub_questions.length
        else if (analyzeQuestion q).search_strategy = "sequential" then
          min (analyzeQuestion q).sub_questions.length d
        else 1) :=
  pipeline_rounds_appended deps m a now stats q d elapsed
